import Mathlib

/-!
Shallow embedding of the WhatsApp bot server (the full draft, the file whose
first line is `// server.js`, here called "the server").  The server wires a
Baileys protocol client to Supabase (durable record store), Upstash Redis
(ephemeral pairing-code cache and inbound event stream) and Socket.IO (the
real-time notification channel).

The embedding models each event handler as a pure function from its inputs
(plus an explicit fault oracle for the external I/O calls, where the claims
need one) to the list of side effects it performs, and the reconnect logic as
a small labelled transition system whose `timerFires` transitions model the
`setTimeout` callback scheduled on a non-logout disconnect.
-/

namespace WABot

/-- JavaScript truthiness on optional strings: `undefined`/`null` and the
empty string are falsy, every other string is truthy. -/
def jsTruthy : Option String → Bool
  | none => false
  | some s => !(s == "")

/-- JavaScript `a || b` on optional strings (first truthy operand, else `b`). -/
def jsOr (a b : Option String) : Option String :=
  if jsTruthy a then a else b

/-- JavaScript `a || b` where `b` is a plain (always defined) string. -/
def jsOrStr (a : Option String) (b : String) : String :=
  if jsTruthy a then a.getD b else b

/-- `TENANT_ID = process.env.TENANT_ID || process.env.WHATSAPP_SESSION_ID || 'dev_tenant'`. -/
def TENANT_ID (envTenant envSession : Option String) : String :=
  jsOrStr envTenant (jsOrStr envSession "dev_tenant")

/-- `SESSION_ID = process.env.WHATSAPP_SESSION_ID || TENANT_ID`. -/
def SESSION_ID (envTenant envSession : Option String) : String :=
  jsOrStr envSession (TENANT_ID envTenant envSession)

/-- `message.key` of a Baileys message: chat/counterparty identifiers, the
`fromMe` flag, and the (custom-injected, normally absent) `tenant_id`. -/
structure MsgKey where
  remoteJid : Option String
  participant : Option String
  id : Option String
  fromMe : Bool
  tenant_id : Option String
  deriving Repr, DecidableEq

/-- The fields of `message.message` the server inspects: the plain text body,
the extended text body, the tenant id buried in the quoted-message context
info, and the image caption. -/
structure MsgContent where
  conversation : Option String
  extendedText : Option String
  extCtxQuotedTenant : Option String
  imageCaption : Option String
  deriving Repr, DecidableEq

/-- An inbound Baileys message as the `messages.upsert` handler reads it.
`content` is `message.message`, which may be absent. -/
structure WAMessage where
  key : MsgKey
  content : Option MsgContent
  messageTimestamp : Nat
  deriving Repr, DecidableEq

/-- The inbound payload the server builds: tenant id, chat id, counterparty
(`participant || remoteJid`), extracted text, message id and timestamp. -/
structure Payload where
  tenant_id : String
  chat_id : Option String
  fromJid : Option String
  text : Option String
  message_id : Option String
  ts : Nat
  deriving Repr, DecidableEq

/-- One observable side effect of the server, in program order. -/
inductive Effect where
  | emitQr (qr : String)
  | redisSetQr (key qr : String)
  | emitConnected
  | upsertSession (storeId status : String)
  | scheduleRestart (delayMs : Nat)
  | redisDelQr (key : String)
  | emitSessionLoggedOut
  | xaddInbound (stream : String) (p : Payload)
  | insertInbound (storeId : String) (p : Payload)
  | emitMsgReceived (fromJid text : Option String)
  | sendMessage (jid text : String)
  | insertOutbound (storeId jid text : String)
  | logWarn (s : String)
  | logError (s : String)
  deriving Repr, DecidableEq

/-- `message.message?.conversation || message.message?.extendedTextMessage?.text
|| message.message?.imageMessage?.caption || null`: the first truthy field in
order, else `null`. -/
def extractText (c : Option MsgContent) : Option String :=
  let conv := c.bind MsgContent.conversation
  let ext := c.bind MsgContent.extendedText
  let cap := c.bind MsgContent.imageCaption
  if jsTruthy conv then conv
  else if jsTruthy ext then ext
  else if jsTruthy cap then cap
  else none

/-- Tenant resolution: `quotedMessage?.tenant_id || key?.tenant_id || SESSION_ID`. -/
def resolveTenant (m : WAMessage) (sessionId : String) : String :=
  let quoted := m.content.bind MsgContent.extCtxQuotedTenant
  if jsTruthy quoted then quoted.getD ""
  else if jsTruthy m.key.tenant_id then m.key.tenant_id.getD ""
  else sessionId

/-- Outcome oracle for the three awaited I/O calls of the `messages.upsert`
handler: the Redis stream append, the Supabase audit insert, and the
Socket.IO notification push.  `false` means the call throws. -/
structure UpsertFaults where
  xaddOk : Bool
  insertOk : Bool
  emitOk : Bool
  deriving Repr, DecidableEq

/-- All three I/O calls succeed. -/
def allOk : UpsertFaults := ⟨true, true, true⟩

/-- The `messages.upsert` handler.  It looks only at `m.messages[0]`, returns
with no effect on a missing message, a `fromMe` message, or an unresolvable
tenant id (warning logged), and otherwise performs, sequentially inside one
`try`: the stream append, the audit insert (whose duplicated `store_id`
object key resolves, by JavaScript object-literal semantics, to the resolved
tenant id), and the notification push.  A throwing call aborts the sequence
and the surrounding `catch` logs the error. -/
def messagesUpsert (sessionId : String) (f : UpsertFaults)
    (msgs : List WAMessage) : List Effect :=
  match msgs.head? with
  | none => []
  | some message =>
    let text := extractText message.content
    if message.key.fromMe then []
    else
      let tenantId := resolveTenant message sessionId
      if tenantId = "" then
        [Effect.logWarn "No tenant_id found in inbound message, skipping."]
      else
        let payload : Payload :=
          { tenant_id := tenantId
            chat_id := message.key.remoteJid
            fromJid := jsOr message.key.participant message.key.remoteJid
            text := text
            message_id := message.key.id
            ts := message.messageTimestamp }
        if f.xaddOk then
          Effect.xaddInbound "wa.inbound" payload ::
            (if f.insertOk then
              Effect.insertInbound tenantId payload ::
                (if f.emitOk then
                  [Effect.emitMsgReceived payload.chat_id payload.text]
                else [Effect.logError "Error handling messages.upsert"])
            else [Effect.logError "Error handling messages.upsert"])
        else [Effect.logError "Error handling messages.upsert"]

/-- Texts of the inbound audit records in an effect list. -/
def inboundTexts (es : List Effect) : List (Option String) :=
  es.filterMap fun e =>
    match e with
    | Effect.insertInbound _ p => some p.text
    | _ => none

/-- Store ids (resolved tenant ids) of the inbound audit records. -/
def inboundTenants (es : List Effect) : List String :=
  es.filterMap fun e =>
    match e with
    | Effect.insertInbound t _ => some t
    | _ => none

/-- Number of inbound audit inserts in an effect list. -/
def countInsertInbound (es : List Effect) : Nat :=
  (es.filter fun e =>
    match e with
    | Effect.insertInbound _ _ => true
    | _ => false).length

/-- Number of stream appends in an effect list. -/
def countXadd (es : List Effect) : Nat :=
  (es.filter fun e =>
    match e with
    | Effect.xaddInbound _ _ => true
    | _ => false).length

/-- Number of notification pushes in an effect list. -/
def countMsgReceived (es : List Effect) : Nat :=
  (es.filter fun e =>
    match e with
    | Effect.emitMsgReceived _ _ => true
    | _ => false).length

/-- Number of error-log entries in an effect list. -/
def countLogError (es : List Effect) : Nat :=
  (es.filter fun e =>
    match e with
    | Effect.logError _ => true
    | _ => false).length

/-- Strip every non-digit character, as `String(to).replace(/\D/g, '')` does. -/
def stripNonDigits (s : String) : String :=
  String.mk (s.data.filter Char.isDigit)

/-- HTTP response of the `/send` endpoint: 401, 400, 500, or 200 `{status:'sent'}`. -/
inductive SendResp where
  | unauthorized
  | badRequest (msg : String)
  | serverError (msg : String)
  | sent
  deriving Repr, DecidableEq

/-- The body of a `/send` request (`x-api-key` header, `to`, `message`). -/
structure SendReq where
  apiKey : Option String
  toNumber : Option String
  message : Option String
  deriving Repr, DecidableEq

/-- Outcome oracle for the two awaited calls of `/send`: the protocol-client
send and the Supabase outbound audit insert.  `false` means the call throws. -/
structure SendEnv where
  sendOk : Bool
  insertOk : Bool
  deriving Repr, DecidableEq

/-- The `/send` handler.  Check order as in the source: credential, body
presence and message length, digit normalization and 6-20-digit check, live
client handle, then `await sock.sendMessage` and `await supabase.insert`,
both inside the single `try` whose `catch` returns 500. -/
def handleSend (apiKeyCfg : Option String) (tenantCfg : String)
    (sockPresent : Bool) (env : SendEnv) (req : SendReq) :
    SendResp × List Effect :=
  if ¬ jsTruthy req.apiKey ∨ req.apiKey ≠ apiKeyCfg then
    (SendResp.unauthorized, [])
  else if ¬ jsTruthy req.toNumber ∨ ¬ jsTruthy req.message ∨
      1000 < (req.message.getD "").length then
    (SendResp.badRequest "Missing to, message, or message exceeds 1000 characters", [])
  else
    let digits := stripNonDigits (req.toNumber.getD "")
    if ¬ (6 ≤ digits.length ∧ digits.length ≤ 20) then
      (SendResp.badRequest "Invalid phone format", [])
    else
      let jid := digits ++ "@s.whatsapp.net"
      if ¬ sockPresent then
        (SendResp.serverError "WhatsApp not connected", [])
      else if ¬ env.sendOk then
        (SendResp.serverError "send failed", [])
      else if ¬ env.insertOk then
        (SendResp.serverError "insert failed",
          [Effect.sendMessage jid (req.message.getD "")])
      else
        (SendResp.sent,
          [Effect.sendMessage jid (req.message.getD ""),
           Effect.insertOutbound tenantCfg jid (req.message.getD "")])

/-- Number of outbound audit inserts in an effect list. -/
def countInsertOutbound (es : List Effect) : Nat :=
  (es.filter fun e =>
    match e with
    | Effect.insertOutbound _ _ _ => true
    | _ => false).length

/-- Chat ids of the outbound audit records in an effect list. -/
def outboundChatIds (es : List Effect) : List String :=
  es.filterMap fun e =>
    match e with
    | Effect.insertOutbound _ jid _ => some jid
    | _ => none

/-- A `connection.update` event: the `connection` phase string, the disconnect
status code `lastDisconnect?.error?.output?.statusCode`, and the QR field. -/
structure ConnUpdate where
  connection : Option String
  statusCode : Option Nat
  qr : Option String
  deriving Repr, DecidableEq

/-- Baileys `DisconnectReason.loggedOut`. -/
def DisconnectReason_loggedOut : Nat := 401

/-- `lastDisconnect?.error?.output?.statusCode !== DisconnectReason.loggedOut`:
an absent status code also counts as should-reconnect. -/
def shouldReconnect (u : ConnUpdate) : Bool :=
  u.statusCode ≠ some DisconnectReason_loggedOut

/-- The `connection.update` handler (the `latestQr` module variable is passed
in; a fresh `qr` field overwrites it before the `open` branch reads it).
Effects in program order: QR emission and caching, the `open` branch, and the
`close` branch, which either persists `reconnecting` and schedules a restart
after a fixed 5000 ms delay, or persists `logged_out`, deletes the cached
pairing code and emits `session_logged_out`. -/
def connectionUpdate (tenantCfg sessionId : String) (latestQr : Option String)
    (u : ConnUpdate) : List Effect :=
  let latestQrNow := match u.qr with
    | some q => some q
    | none => latestQr
  (match u.qr with
   | some q => [Effect.emitQr q, Effect.redisSetQr ("wa:qr:" ++ sessionId) q]
   | none => []) ++
  (if u.connection = some "open" then
    [Effect.emitConnected, Effect.upsertSession tenantCfg "connected"] ++
      (if jsTruthy latestQrNow then [Effect.emitQr (latestQrNow.getD "")] else [])
  else []) ++
  (if u.connection = some "close" then
    (if shouldReconnect u then
      [Effect.upsertSession tenantCfg "reconnecting", Effect.scheduleRestart 5000]
    else
      [Effect.upsertSession tenantCfg "logged_out",
       Effect.redisDelQr ("wa:qr:" ++ sessionId),
       Effect.emitSessionLoggedOut])
  else [])

/-- An event of the reconnect transition system: a `connection.update`
delivery, or the firing of one scheduled `setTimeout(() => startBot()...)`
restart callback. -/
inductive BotEvent where
  | connUpdate (u : ConnUpdate)
  | timerFires
  deriving Repr, DecidableEq

/-- Observable state of one run: the last persisted session status, the
number of scheduled-but-unfired restart callbacks, the number of `startBot`
invocations (client constructions), the `latestQr` variable, and the
accumulated effect log. -/
structure BotState where
  status : String
  pendingTimers : Nat
  startCalls : Nat
  latestQr : Option String
  log : List Effect
  deriving Repr, DecidableEq

/-- State before any event: no persisted status, no timers, the initial
`startBot` call of process start is not counted. -/
def initState : BotState :=
  { status := "unknown", pendingTimers := 0, startCalls := 0,
    latestQr := none, log := [] }

/-- One step of the run.  A `connection.update` performs the handler's
effects; a `close` additionally moves the persisted status and, when the
reason is not logout, leaves one more pending restart timer.  `timerFires`
models one scheduled callback running: the callback invokes `startBot()`
unconditionally — the source contains no status re-check inside it. -/
def stepBot (tenantCfg sessionId : String) (s : BotState) (e : BotEvent) :
    BotState :=
  match e with
  | BotEvent.connUpdate u =>
    { s with
      latestQr := (match u.qr with | some q => some q | none => s.latestQr)
      status :=
        if u.connection = some "close" then
          (if shouldReconnect u then "reconnecting" else "logged_out")
        else if u.connection = some "open" then "connected"
        else s.status
      pendingTimers := s.pendingTimers +
        (if u.connection = some "close" ∧ shouldReconnect u then 1 else 0)
      log := s.log ++ connectionUpdate tenantCfg sessionId s.latestQr u }
  | BotEvent.timerFires =>
    if s.pendingTimers > 0 then
      { s with pendingTimers := s.pendingTimers - 1,
               startCalls := s.startCalls + 1 }
    else s

/-- Run a sequence of events from a state. -/
def runBot (tenantCfg sessionId : String) (s : BotState)
    (es : List BotEvent) : BotState :=
  es.foldl (stepBot tenantCfg sessionId) s

/-! ## Supporting lemmas -/

/-- With no pending restart timer, any number of `timerFires` events is a
no-op: the `setTimeout` callback only runs if it was scheduled. -/
lemma runBot_timerFires_noop (tenantCfg sessionId : String) (s : BotState)
    (h : s.pendingTimers = 0) (n : Nat) :
    runBot tenantCfg sessionId s (List.replicate n BotEvent.timerFires) = s := by
  induction n with
  | zero => rfl
  | succ k ih =>
    have hstep : stepBot tenantCfg sessionId s BotEvent.timerFires = s := by
      simp [stepBot, h]
    simpa [runBot, List.replicate_succ, hstep] using ih

/-- The configured session identifier is never empty: the `||`-chain of the
environment defaults bottoms out at the literal `'dev_tenant'`. -/
lemma SESSION_ID_ne_empty (envTenant envSession : Option String) :
    SESSION_ID envTenant envSession ≠ "" := by
  unfold SESSION_ID TENANT_ID jsOrStr jsTruthy
  cases envSession with
  | none =>
    cases envTenant with
    | none => simp
    | some t => by_cases ht : t = "" <;> simp [ht]
  | some sid =>
    by_cases hs : sid = ""
    · cases envTenant with
      | none => simp [hs]
      | some t => by_cases ht : t = "" <;> simp [hs, ht]
    · simp [hs]

/-- The payload object the `messages.upsert` handler builds (factored out for
lemma statements; definitionally the inline object of `messagesUpsert`). -/
def mkPayload (sessionId : String) (m : WAMessage) : Payload :=
  { tenant_id := resolveTenant m sessionId
    chat_id := m.key.remoteJid
    fromJid := jsOr m.key.participant m.key.remoteJid
    text := extractText m.content
    message_id := m.key.id
    ts := m.messageTimestamp }

/-- A truthy optional string has a nonempty `getD ""` value. -/
lemma jsTruthy_getD_ne (o : Option String) (h : jsTruthy o = true) :
    o.getD "" ≠ "" := by
  cases o with
  | none => simp [jsTruthy] at h
  | some s => simpa [jsTruthy] using h

/-- Normal form of the handler on a processed message when all three I/O
calls succeed: stream append, audit insert, notification push, in order. -/
lemma messagesUpsert_allOk (sessionId : String) (m : WAMessage)
    (rest : List WAMessage) (hf : m.key.fromMe = false)
    (ht : resolveTenant m sessionId ≠ "") :
    messagesUpsert sessionId allOk (m :: rest) =
      [Effect.xaddInbound "wa.inbound" (mkPayload sessionId m),
       Effect.insertInbound (resolveTenant m sessionId) (mkPayload sessionId m),
       Effect.emitMsgReceived m.key.remoteJid (extractText m.content)] := by
  simp [messagesUpsert, allOk, hf, ht, mkPayload]

/-! ## Claims -/

/-- Claim C10: the `messages.upsert` handler examines only `m.messages[0]`;
the effects of a batch are exactly the effects of its first message alone, so
every message after the first is ignored entirely (no audit record, no stream
entry, no notification can come from it). -/
theorem C10_only_first_message_processed (sessionId : String)
    (f : UpsertFaults) (m : WAMessage) (rest : List WAMessage) :
    messagesUpsert sessionId f (m :: rest) = messagesUpsert sessionId f [m] := rfl

/-- Claim C7: an inbound message flagged `fromMe` produces no side effect at
all: the handler returns before the stream append, the audit insert and the
notification push. -/
theorem C7_fromMe_no_effects (sessionId : String) (f : UpsertFaults)
    (m : WAMessage) (rest : List WAMessage) (h : m.key.fromMe = true) :
    messagesUpsert sessionId f (m :: rest) = [] := by
  simp [messagesUpsert, h]

/-- Witness for C7 at a concrete self-originated text message. -/
theorem C7_fromMe_no_effects_witness :
    messagesUpsert "dev_tenant" allOk
      [{ key := { remoteJid := some "123@s.whatsapp.net", participant := none,
                  id := some "MSG1", fromMe := true, tenant_id := none },
         content := some { conversation := some "hi", extendedText := none,
                           extCtxQuotedTenant := none, imageCaption := none },
         messageTimestamp := 111 }] = [] :=
  C7_fromMe_no_effects "dev_tenant" allOk _ [] rfl

/-- Claim C6: a `/send` request whose `x-api-key` header is missing or does
not equal the configured secret is answered 401 with no other effect: no body
validation outcome, no phone normalization outcome, no client-handle check,
no send attempt — whatever the body, the client handle, or the I/O outcomes. -/
theorem C6_unauthorized_rejected_first (apiKeyCfg : Option String)
    (tenantCfg : String) (sockPresent : Bool) (env : SendEnv) (req : SendReq)
    (h : ¬ jsTruthy req.apiKey ∨ req.apiKey ≠ apiKeyCfg) :
    handleSend apiKeyCfg tenantCfg sockPresent env req =
      (SendResp.unauthorized, []) := by
  unfold handleSend
  rw [if_pos h]

/-- Witness for C6: fully valid body, wrong key, live handle, fault-free
environment — still 401 and zero effects. -/
theorem C6_unauthorized_rejected_first_witness :
    handleSend (some "secret") "dev_tenant" true { sendOk := true, insertOk := true }
      { apiKey := some "wrong", toNumber := some "+234 801 234 5678",
        message := some "Hello" } = (SendResp.unauthorized, []) :=
  C6_unauthorized_rejected_first (some "secret") "dev_tenant" true _ _ (by decide)

/-- Claim C2: a `connection.update` close whose disconnect status code is the
logout code persists `logged_out`, deletes the cached pairing code, emits the
`session_logged_out` notification, and schedules no restart; consequently, in
a run with no restart timer already pending, no `startBot` invocation (client
construction) ever occurs after that event, however many timer ticks follow. -/
theorem C2_logout_close_no_reconnect (tenantCfg sessionId : String)
    (s : BotState) (u : ConnUpdate) (hc : u.connection = some "close")
    (hr : u.statusCode = some DisconnectReason_loggedOut)
    (hp : s.pendingTimers = 0) :
    Effect.upsertSession tenantCfg "logged_out" ∈
        connectionUpdate tenantCfg sessionId s.latestQr u ∧
    Effect.redisDelQr ("wa:qr:" ++ sessionId) ∈
        connectionUpdate tenantCfg sessionId s.latestQr u ∧
    Effect.emitSessionLoggedOut ∈
        connectionUpdate tenantCfg sessionId s.latestQr u ∧
    (∀ d, Effect.scheduleRestart d ∉
        connectionUpdate tenantCfg sessionId s.latestQr u) ∧
    (∀ n, (runBot tenantCfg sessionId
        (stepBot tenantCfg sessionId s (BotEvent.connUpdate u))
        (List.replicate n BotEvent.timerFires)).startCalls = s.startCalls) := by
  have hsr : shouldReconnect u = false := by
    simp [shouldReconnect, hr]
  have hco : ¬ (u.connection = some "open") := by
    rw [hc]; simp
  have hes : connectionUpdate tenantCfg sessionId s.latestQr u =
      (match u.qr with
       | some q => [Effect.emitQr q, Effect.redisSetQr ("wa:qr:" ++ sessionId) q]
       | none => []) ++
      [Effect.upsertSession tenantCfg "logged_out",
       Effect.redisDelQr ("wa:qr:" ++ sessionId),
       Effect.emitSessionLoggedOut] := by
    unfold connectionUpdate
    rw [hc]
    simp [hsr]
  refine ⟨?_, ?_, ?_, ?_, ?_⟩
  · rw [hes]; cases u.qr <;> simp
  · rw [hes]; cases u.qr <;> simp
  · rw [hes]; cases u.qr <;> simp
  · intro d; rw [hes]; cases u.qr <;> simp
  · intro n
    have hstep : (stepBot tenantCfg sessionId s (BotEvent.connUpdate u)).pendingTimers = 0 ∧
        (stepBot tenantCfg sessionId s (BotEvent.connUpdate u)).startCalls = s.startCalls := by
      constructor
      · simp [stepBot, hc, hsr, hp]
      · simp [stepBot]
    rw [runBot_timerFires_noop tenantCfg sessionId _ hstep.1 n, hstep.2]

/-- Witness for C2: a concrete logout close from a connected state with no
pending timer; three timer ticks later no client construction has happened. -/
theorem C2_logout_close_no_reconnect_witness :
    Effect.upsertSession "dev_tenant" "logged_out" ∈
        connectionUpdate "dev_tenant" "dev_tenant" none
          { connection := some "close", statusCode := some 401, qr := none } ∧
    Effect.redisDelQr ("wa:qr:" ++ "dev_tenant") ∈
        connectionUpdate "dev_tenant" "dev_tenant" none
          { connection := some "close", statusCode := some 401, qr := none } ∧
    (runBot "dev_tenant" "dev_tenant"
        (stepBot "dev_tenant" "dev_tenant"
          { status := "connected", pendingTimers := 0, startCalls := 0,
            latestQr := none, log := [] }
          (BotEvent.connUpdate
            { connection := some "close", statusCode := some 401, qr := none }))
        (List.replicate 3 BotEvent.timerFires)).startCalls = 0 := by
  have h := C2_logout_close_no_reconnect "dev_tenant" "dev_tenant"
    { status := "connected", pendingTimers := 0, startCalls := 0,
      latestQr := none, log := [] }
    { connection := some "close", statusCode := some 401, qr := none }
    rfl rfl rfl
  exact ⟨h.1, h.2.1, h.2.2.2.2 3⟩

/-- Claim C1 evaluation at the failing trace: a non-logout close persists
`reconnecting` and schedules the fixed-delay restart (the claim's first
half), but when the logout close arrives inside the delay window the still
pending `setTimeout` callback fires and invokes `startBot()` anyway — a
client construction occurs with the session already `logged_out`, because the
callback re-checks nothing. -/
theorem C1_interim_logout_restart_still_fires :
    (stepBot "dev_tenant" "dev_tenant" initState
      (BotEvent.connUpdate
        { connection := some "close", statusCode := some 500, qr := none })).status
        = "reconnecting" ∧
    (stepBot "dev_tenant" "dev_tenant" initState
      (BotEvent.connUpdate
        { connection := some "close", statusCode := some 500, qr := none })).pendingTimers
        = 1 ∧
    Effect.scheduleRestart 5000 ∈
      (stepBot "dev_tenant" "dev_tenant" initState
        (BotEvent.connUpdate
          { connection := some "close", statusCode := some 500, qr := none })).log ∧
    (runBot "dev_tenant" "dev_tenant" initState
      [BotEvent.connUpdate
        { connection := some "close", statusCode := some 500, qr := none },
       BotEvent.connUpdate
        { connection := some "close", statusCode := some 401, qr := none }]).status
        = "logged_out" ∧
    (runBot "dev_tenant" "dev_tenant" initState
      [BotEvent.connUpdate
        { connection := some "close", statusCode := some 500, qr := none },
       BotEvent.connUpdate
        { connection := some "close", statusCode := some 401, qr := none }]).startCalls
        = 0 ∧
    (runBot "dev_tenant" "dev_tenant" initState
      [BotEvent.connUpdate
        { connection := some "close", statusCode := some 500, qr := none },
       BotEvent.connUpdate
        { connection := some "close", statusCode := some 401, qr := none },
       BotEvent.timerFires]).status = "logged_out" ∧
    (runBot "dev_tenant" "dev_tenant" initState
      [BotEvent.connUpdate
        { connection := some "close", statusCode := some 500, qr := none },
       BotEvent.connUpdate
        { connection := some "close", statusCode := some 401, qr := none },
       BotEvent.timerFires]).startCalls = 1 := by
  refine ⟨?_, ?_, ?_, ?_, ?_, ?_, ?_⟩ <;> decide

/-- Claim C8: for a processed inbound message (not self-originated, tenant
resolvable, fault-free I/O) the text recorded in the audit record is the
first populated field in the order plain text body, extended text body, image
caption; and when all three are absent exactly one audit record is still
produced, with a null text. -/
theorem C8_text_extraction_order (sessionId : String) (m : WAMessage)
    (rest : List WAMessage) (hf : m.key.fromMe = false)
    (ht : resolveTenant m sessionId ≠ "") :
    (jsTruthy (m.content.bind MsgContent.conversation) = true →
      inboundTexts (messagesUpsert sessionId allOk (m :: rest)) =
        [m.content.bind MsgContent.conversation]) ∧
    (jsTruthy (m.content.bind MsgContent.conversation) = false →
      jsTruthy (m.content.bind MsgContent.extendedText) = true →
      inboundTexts (messagesUpsert sessionId allOk (m :: rest)) =
        [m.content.bind MsgContent.extendedText]) ∧
    (jsTruthy (m.content.bind MsgContent.conversation) = false →
      jsTruthy (m.content.bind MsgContent.extendedText) = false →
      jsTruthy (m.content.bind MsgContent.imageCaption) = true →
      inboundTexts (messagesUpsert sessionId allOk (m :: rest)) =
        [m.content.bind MsgContent.imageCaption]) ∧
    (m.content.bind MsgContent.conversation = none →
      m.content.bind MsgContent.extendedText = none →
      m.content.bind MsgContent.imageCaption = none →
      countInsertInbound (messagesUpsert sessionId allOk (m :: rest)) = 1 ∧
      inboundTexts (messagesUpsert sessionId allOk (m :: rest)) = [none]) := by
  rw [messagesUpsert_allOk sessionId m rest hf ht]
  refine ⟨?_, ?_, ?_, ?_⟩
  · intro h1
    simp [inboundTexts, mkPayload, extractText, h1]
  · intro h1 h2
    simp [inboundTexts, mkPayload, extractText, h1, h2]
  · intro h1 h2 h3
    simp [inboundTexts, mkPayload, extractText, h1, h2, h3]
  · intro e1 e2 e3
    constructor
    · simp [countInsertInbound]
    · simp [inboundTexts, mkPayload, extractText, e1, e2, e3, jsTruthy]

/-- Witness for C8 at a message with no plain body, an extended text body,
and an image caption: the extended text wins. -/
theorem C8_text_extraction_order_witness :
    inboundTexts (messagesUpsert "dev_tenant" allOk
      [{ key := { remoteJid := some "123@s.whatsapp.net", participant := none,
                  id := some "MSG2", fromMe := false, tenant_id := none },
         content := some { conversation := none, extendedText := some "quoted reply",
                           extCtxQuotedTenant := none, imageCaption := some "pic" },
         messageTimestamp := 7 }]) = [some "quoted reply"] :=
  (C8_text_extraction_order "dev_tenant" _ [] rfl (by decide)).2.1 rfl rfl

/-- Claim C9: an inbound message whose tenant id is unresolvable (no embedded
tenant metadata and an empty configured session identifier) is dropped with a
warning and zero side effects, whatever the I/O outcomes would have been;
otherwise the identifier used for the audit record is the quoted-context
tenant id when populated, else the message-key tenant id when populated, else
the configured session identifier. -/
theorem C9_tenant_resolution (sessionId : String) (f : UpsertFaults)
    (m : WAMessage) (rest : List WAMessage) (hf : m.key.fromMe = false) :
    (jsTruthy (m.content.bind MsgContent.extCtxQuotedTenant) = false →
      jsTruthy m.key.tenant_id = false → sessionId = "" →
      messagesUpsert sessionId f (m :: rest) =
        [Effect.logWarn "No tenant_id found in inbound message, skipping."]) ∧
    (jsTruthy (m.content.bind MsgContent.extCtxQuotedTenant) = true →
      inboundTenants (messagesUpsert sessionId allOk (m :: rest)) =
        [(m.content.bind MsgContent.extCtxQuotedTenant).getD ""]) ∧
    (jsTruthy (m.content.bind MsgContent.extCtxQuotedTenant) = false →
      jsTruthy m.key.tenant_id = true →
      inboundTenants (messagesUpsert sessionId allOk (m :: rest)) =
        [m.key.tenant_id.getD ""]) ∧
    (jsTruthy (m.content.bind MsgContent.extCtxQuotedTenant) = false →
      jsTruthy m.key.tenant_id = false → sessionId ≠ "" →
      inboundTenants (messagesUpsert sessionId allOk (m :: rest)) =
        [sessionId]) := by
  refine ⟨?_, ?_, ?_, ?_⟩
  · intro hq hk hs
    simp [messagesUpsert, hf, resolveTenant, hq, hk, hs]
  · intro hq
    have ht : resolveTenant m sessionId ≠ "" := by
      simp only [resolveTenant, hq, if_pos]
      exact jsTruthy_getD_ne _ hq
    rw [messagesUpsert_allOk sessionId m rest hf ht]
    simp [inboundTenants, resolveTenant, hq]
  · intro hq hk
    have ht : resolveTenant m sessionId ≠ "" := by
      simp only [resolveTenant, hq, hk, if_neg, if_pos, Bool.false_eq_true,
        if_false]
      exact jsTruthy_getD_ne _ hk
    rw [messagesUpsert_allOk sessionId m rest hf ht]
    simp [inboundTenants, resolveTenant, hq, hk]
  · intro hq hk hs
    have ht : resolveTenant m sessionId ≠ "" := by
      simpa [resolveTenant, hq, hk] using hs
    rw [messagesUpsert_allOk sessionId m rest hf ht]
    simp [inboundTenants, resolveTenant, hq, hk]

/-- Witness for C9: no embedded tenant metadata anywhere, so the audit record
carries the configured session identifier. -/
theorem C9_tenant_resolution_witness :
    inboundTenants (messagesUpsert "dev_tenant" allOk
      [{ key := { remoteJid := some "123@s.whatsapp.net", participant := none,
                  id := some "MSG3", fromMe := false, tenant_id := none },
         content := some { conversation := some "hello", extendedText := none,
                           extCtxQuotedTenant := none, imageCaption := none },
         messageTimestamp := 9 }]) = ["dev_tenant"] :=
  (C9_tenant_resolution "dev_tenant" allOk _ [] rfl).2.2.2 rfl rfl (by decide)

/-- Claim C3 counterexample: at a concrete inbound text message whose stream
append throws while the audit insert and the notification push would both
succeed, neither of the other two side effects is performed — the handler
performs no stream append, no audit insert and no notification, only the
error log.  This refutes the claimed pairwise independence of the three side
effects. -/
theorem C3_counterexample_xadd_failure_blocks_rest :
    countXadd (messagesUpsert "dev_tenant" { xaddOk := false, insertOk := true, emitOk := true }
      [{ key := { remoteJid := some "123@s.whatsapp.net", participant := none,
                  id := some "MSG4", fromMe := false, tenant_id := none },
         content := some { conversation := some "hello", extendedText := none,
                           extCtxQuotedTenant := none, imageCaption := none },
         messageTimestamp := 3 }]) = 0 ∧
    countInsertInbound (messagesUpsert "dev_tenant" { xaddOk := false, insertOk := true, emitOk := true }
      [{ key := { remoteJid := some "123@s.whatsapp.net", participant := none,
                  id := some "MSG4", fromMe := false, tenant_id := none },
         content := some { conversation := some "hello", extendedText := none,
                           extCtxQuotedTenant := none, imageCaption := none },
         messageTimestamp := 3 }]) = 0 ∧
    countMsgReceived (messagesUpsert "dev_tenant" { xaddOk := false, insertOk := true, emitOk := true }
      [{ key := { remoteJid := some "123@s.whatsapp.net", participant := none,
                  id := some "MSG4", fromMe := false, tenant_id := none },
         content := some { conversation := some "hello", extendedText := none,
                           extCtxQuotedTenant := none, imageCaption := none },
         messageTimestamp := 3 }]) = 0 ∧
    countLogError (messagesUpsert "dev_tenant" { xaddOk := false, insertOk := true, emitOk := true }
      [{ key := { remoteJid := some "123@s.whatsapp.net", participant := none,
                  id := some "MSG4", fromMe := false, tenant_id := none },
         content := some { conversation := some "hello", extendedText := none,
                           extCtxQuotedTenant := none, imageCaption := none },
         messageTimestamp := 3 }]) = 1 := by
  refine ⟨?_, ?_, ?_, ?_⟩ <;> decide

/-- Claim C3 amended: the three side effects of the inbound handler run
sequentially inside one protected block, in the order stream append, audit
insert, notification push.  A throwing call is caught and logged (never
propagated), but it also prevents every later side effect of the sequence;
only a failure of the final notification push leaves the other two
performed. -/
theorem C3_amended_sequential_failure_containment (sessionId : String)
    (f : UpsertFaults) (m : WAMessage) (rest : List WAMessage)
    (hf : m.key.fromMe = false) (ht : resolveTenant m sessionId ≠ "") :
    countXadd (messagesUpsert sessionId f (m :: rest)) =
      (if f.xaddOk then 1 else 0) ∧
    countInsertInbound (messagesUpsert sessionId f (m :: rest)) =
      (if f.xaddOk && f.insertOk then 1 else 0) ∧
    countMsgReceived (messagesUpsert sessionId f (m :: rest)) =
      (if f.xaddOk && f.insertOk && f.emitOk then 1 else 0) ∧
    countLogError (messagesUpsert sessionId f (m :: rest)) =
      (if f.xaddOk && f.insertOk && f.emitOk then 0 else 1) := by
  obtain ⟨x, i, e⟩ := f
  cases x <;> cases i <;> cases e <;>
    simp [messagesUpsert, hf, ht, countXadd, countInsertInbound,
      countMsgReceived, countLogError]

/-- Witness for the amended C3: audit insert throws, so the stream append
went through, the notification was skipped, and the error was logged. -/
theorem C3_amended_sequential_failure_containment_witness :
    countXadd (messagesUpsert "dev_tenant" { xaddOk := true, insertOk := false, emitOk := true }
      [{ key := { remoteJid := some "123@s.whatsapp.net", participant := none,
                  id := some "MSG5", fromMe := false, tenant_id := none },
         content := some { conversation := some "hello", extendedText := none,
                           extCtxQuotedTenant := none, imageCaption := none },
         messageTimestamp := 4 }]) = 1 ∧
    countInsertInbound (messagesUpsert "dev_tenant" { xaddOk := true, insertOk := false, emitOk := true }
      [{ key := { remoteJid := some "123@s.whatsapp.net", participant := none,
                  id := some "MSG5", fromMe := false, tenant_id := none },
         content := some { conversation := some "hello", extendedText := none,
                           extCtxQuotedTenant := none, imageCaption := none },
         messageTimestamp := 4 }]) = 0 ∧
    countMsgReceived (messagesUpsert "dev_tenant" { xaddOk := true, insertOk := false, emitOk := true }
      [{ key := { remoteJid := some "123@s.whatsapp.net", participant := none,
                  id := some "MSG5", fromMe := false, tenant_id := none },
         content := some { conversation := some "hello", extendedText := none,
                           extCtxQuotedTenant := none, imageCaption := none },
         messageTimestamp := 4 }]) = 0 ∧
    countLogError (messagesUpsert "dev_tenant" { xaddOk := true, insertOk := false, emitOk := true }
      [{ key := { remoteJid := some "123@s.whatsapp.net", participant := none,
                  id := some "MSG5", fromMe := false, tenant_id := none },
         content := some { conversation := some "hello", extendedText := none,
                           extCtxQuotedTenant := none, imageCaption := none },
         messageTimestamp := 4 }]) = 1 :=
  C3_amended_sequential_failure_containment "dev_tenant" _ _ [] rfl (by decide)

/-- Claim C4: a `/send` request with a valid credential, a phone input that
strips to 6-20 digits, a valid message (truthy, at most 1000 characters), a
live client handle and fault-free external calls returns the success
acknowledgement and produces exactly one outbound audit record, whose chat id
is the stripped digit string followed by the fixed `@s.whatsapp.net` suffix. -/
theorem C4_send_success_one_audit (apiKeyCfg tenantCfg : String)
    (req : SendReq) (hk : req.apiKey = some apiKeyCfg)
    (hkt : jsTruthy req.apiKey = true) (hto : jsTruthy req.toNumber = true)
    (hm : jsTruthy req.message = true)
    (hlen : (req.message.getD "").length ≤ 1000)
    (hd6 : 6 ≤ (stripNonDigits (req.toNumber.getD "")).length)
    (hd20 : (stripNonDigits (req.toNumber.getD "")).length ≤ 20) :
    handleSend (some apiKeyCfg) tenantCfg true
        { sendOk := true, insertOk := true } req =
      (SendResp.sent,
       [Effect.sendMessage
          (stripNonDigits (req.toNumber.getD "") ++ "@s.whatsapp.net")
          (req.message.getD ""),
        Effect.insertOutbound tenantCfg
          (stripNonDigits (req.toNumber.getD "") ++ "@s.whatsapp.net")
          (req.message.getD "")]) ∧
    countInsertOutbound
        (handleSend (some apiKeyCfg) tenantCfg true
          { sendOk := true, insertOk := true } req).2 = 1 ∧
    outboundChatIds
        (handleSend (some apiKeyCfg) tenantCfg true
          { sendOk := true, insertOk := true } req).2 =
      [stripNonDigits (req.toNumber.getD "") ++ "@s.whatsapp.net"] := by
  have hlen' : ¬ (1000 < (req.message.getD "").length) := by omega
  have heq : handleSend (some apiKeyCfg) tenantCfg true
      { sendOk := true, insertOk := true } req =
      (SendResp.sent,
       [Effect.sendMessage
          (stripNonDigits (req.toNumber.getD "") ++ "@s.whatsapp.net")
          (req.message.getD ""),
        Effect.insertOutbound tenantCfg
          (stripNonDigits (req.toNumber.getD "") ++ "@s.whatsapp.net")
          (req.message.getD "")]) := by
    rw [hk] at hkt
    simp [handleSend, hk, hkt, hto, hm, hlen', hd6, hd20]
  refine ⟨heq, ?_, ?_⟩
  · rw [heq]; simp [countInsertOutbound]
  · rw [heq]; simp [outboundChatIds]

/-- Witness for C4 at a concrete request whose phone input carries spaces and
a leading plus sign. -/
theorem C4_send_success_one_audit_witness :
    handleSend (some "secret") "dev_tenant" true
        { sendOk := true, insertOk := true }
        { apiKey := some "secret", toNumber := some "+234 801 234 5678",
          message := some "Hello" } =
      (SendResp.sent,
       [Effect.sendMessage "2348012345678@s.whatsapp.net" "Hello",
        Effect.insertOutbound "dev_tenant" "2348012345678@s.whatsapp.net" "Hello"]) ∧
    countInsertOutbound
        (handleSend (some "secret") "dev_tenant" true
          { sendOk := true, insertOk := true }
          { apiKey := some "secret", toNumber := some "+234 801 234 5678",
            message := some "Hello" }).2 = 1 ∧
    outboundChatIds
        (handleSend (some "secret") "dev_tenant" true
          { sendOk := true, insertOk := true }
          { apiKey := some "secret", toNumber := some "+234 801 234 5678",
            message := some "Hello" }).2 = ["2348012345678@s.whatsapp.net"] :=
  C4_send_success_one_audit "secret" "dev_tenant" _ rfl (by decide) (by decide)
    (by decide) (by decide) (by decide) (by decide)

/-- Claim C5 counterexample: at a concrete valid request whose protocol send
succeeds but whose outbound audit insert throws, the handler answers 500 —
the audit-write failure does turn the response of an already-sent message
into an error response, refuting the claimed best-effort audit write. -/
theorem C5_counterexample_audit_failure_turns_500 :
    handleSend (some "secret") "dev_tenant" true
        { sendOk := true, insertOk := false }
        { apiKey := some "secret", toNumber := some "2348012345678",
          message := some "Hello" } =
      (SendResp.serverError "insert failed",
       [Effect.sendMessage "2348012345678@s.whatsapp.net" "Hello"]) := by
  decide

/-- Claim C5 amended: the success acknowledgement is returned only when the
protocol send call returns without error — but the outbound audit write is
not best-effort: success also requires the audit insert not to throw, and
when the insert throws after a successful send the handler answers 500 even
though the message was already dispatched (the send effect was performed). -/
theorem C5_amended_success_requires_audit (apiKeyCfg tenantCfg : String)
    (env : SendEnv) (req : SendReq) (hk : req.apiKey = some apiKeyCfg)
    (hkt : jsTruthy req.apiKey = true) (hto : jsTruthy req.toNumber = true)
    (hm : jsTruthy req.message = true)
    (hlen : (req.message.getD "").length ≤ 1000)
    (hd6 : 6 ≤ (stripNonDigits (req.toNumber.getD "")).length)
    (hd20 : (stripNonDigits (req.toNumber.getD "")).length ≤ 20) :
    ((handleSend (some apiKeyCfg) tenantCfg true env req).1 = SendResp.sent ↔
      env.sendOk = true ∧ env.insertOk = true) ∧
    (env.sendOk = true → env.insertOk = false →
      handleSend (some apiKeyCfg) tenantCfg true env req =
        (SendResp.serverError "insert failed",
         [Effect.sendMessage
            (stripNonDigits (req.toNumber.getD "") ++ "@s.whatsapp.net")
            (req.message.getD "")])) := by
  have hlen' : ¬ (1000 < (req.message.getD "").length) := by omega
  rw [hk] at hkt
  obtain ⟨sOk, iOk⟩ := env
  cases sOk <;> cases iOk <;>
    simp [handleSend, hk, hkt, hto, hm, hlen', hd6, hd20]

/-- Witness for the amended C5: send succeeds, insert throws, response 500. -/
theorem C5_amended_success_requires_audit_witness :
    ((handleSend (some "secret") "dev_tenant" true
        { sendOk := true, insertOk := false }
        { apiKey := some "secret", toNumber := some "2348012345678",
          message := some "Hello" }).1 = SendResp.sent ↔
      ({ sendOk := true, insertOk := false } : SendEnv).sendOk = true ∧
      ({ sendOk := true, insertOk := false } : SendEnv).insertOk = true) ∧
    (({ sendOk := true, insertOk := false } : SendEnv).sendOk = true →
      ({ sendOk := true, insertOk := false } : SendEnv).insertOk = false →
      handleSend (some "secret") "dev_tenant" true
          { sendOk := true, insertOk := false }
          { apiKey := some "secret", toNumber := some "2348012345678",
            message := some "Hello" } =
        (SendResp.serverError "insert failed",
         [Effect.sendMessage "2348012345678@s.whatsapp.net" "Hello"])) :=
  C5_amended_success_requires_audit "secret" "dev_tenant"
    { sendOk := true, insertOk := false } _ rfl (by decide) (by decide)
    (by decide) (by decide) (by decide) (by decide)

end WABot
